import Mathlib

set_option synthInstance.maxSize 512

/-!
Shallow embedding of the ovs-driver repository (Go) in Lean 4.

The embedding follows the source files:
  * `src/drivers/ovsdbdriver.go` — OVSDB client: operation building
    (`AddPort`, `DelPort`), transaction execution (`doOperations`),
    change-feed cache (`populateCache`, `Update`).
  * `src/drivers/ovsdriver.go` — the libnetwork driver: network /
    endpoint registry (`CreateNetwork`, `AllocateNetwork`,
    `DeleteNetwork`, `FreeNetwork`, `CreateEndpoint`, `DeleteEndpoint`,
    `Leave`) and helpers (`getSubnetforIP`, `getOvsPortName`,
    `getGatewayIP`).
  * `src/drivers/netutils.go` — MAC generation (`genMAC`).

Modelling conventions:
  * Go maps keyed by strings become association lists with Go map
    semantics (`lookupA` / `insertA` / `eraseA`).  A `nil` Go map is
    `Option` `none` where the distinction matters (reads on a nil map
    yield the zero value; writes panic).
  * Fallible Go functions return `GoResult` (`ok` / `err` / a `gopanic`
    case for run-time panics).
  * External effects (the OVSDB server's replies, netlink calls, random
    interface-name generation, veth creation) are passed in explicitly
    through an `ExtEnv` record, so every function is a pure function of
    its inputs.
  * Machine integers (Go `int` / `int64`) are modelled as `Int`; IPv4
    addresses as `Nat` below `2 ^ 32` with explicit masking.
-/

/-- Outcome of a Go function call: normal value, returned `error`, or a
run-time panic. -/
inductive GoResult (α : Type) where
  | ok : α → GoResult α
  | err : String → GoResult α
  | gopanic : String → GoResult α
deriving DecidableEq, Repr

namespace GoResult

/-- True when the call returned without error and without panicking. -/
def isOk {α : Type} [DecidableEq α] : GoResult α → Bool
  | .ok _ => true
  | _ => false

/-- True when the call returned a Go `error` value. -/
def isErr {α : Type} : GoResult α → Bool
  | .err _ => true
  | _ => false

/-- True when the call panicked. -/
def isPanic {α : Type} : GoResult α → Bool
  | .gopanic _ => true
  | _ => false

end GoResult

/-! ## Go string-keyed maps as association lists -/

/-- Lookup in a Go map (`m[k]`, second return value folded into
`Option`). -/
def lookupA {α : Type} (m : List (String × α)) (k : String) : Option α :=
  (m.find? (fun p => p.1 == k)).map (fun p => p.2)

/-- Go map assignment `m[k] = v`: update in place when the key exists,
append otherwise. -/
def insertA {α : Type} (m : List (String × α)) (k : String) (v : α) :
    List (String × α) :=
  if (m.find? (fun p => p.1 == k)).isSome then
    m.map (fun p => if p.1 = k then (k, v) else p)
  else
    m ++ [(k, v)]

/-- Go `delete(m, k)`. -/
def eraseA {α : Type} (m : List (String × α)) (k : String) :
    List (String × α) :=
  m.filter (fun p => p.1 != k)

/-! ## OVSDB values, rows, operations (libovsdb model) -/

/-- A value stored in an OVSDB row: string, integer, or a reference to a
row through a transaction-local named UUID (`libovsdb.UUID`). -/
inductive OVSValue where
  | str : String → OVSValue
  | int : Int → OVSValue
  | namedUUID : String → OVSValue
deriving DecidableEq, Repr

/-- An OVSDB row: field name to value (`libovsdb.Row.Fields`). -/
abbrev OVSRow := List (String × OVSValue)

/-- A mutation descriptor (`libovsdb.NewMutation`): column, mutator
(`"insert"` / `"delete"`), and the UUID set operand (`NewOvsSet` over a
UUID list). -/
structure OVSMutation where
  column : String
  mutator : String
  uuids : List String
deriving DecidableEq, Repr

/-- A condition (`libovsdb.NewCondition`): column, function, value.  In
this code base the compared value is always a string (a name). -/
structure OVSCondition where
  column : String
  func : String
  value : String
deriving DecidableEq, Repr

/-- One OVSDB operation (`libovsdb.Operation`).  Unused parts are empty
(`row`, `mutations`, `conds`) or `none` (`uuidName`). -/
structure Operation where
  op : String
  table : String
  row : OVSRow
  uuidName : Option String
  mutations : List OVSMutation
  conds : List OVSCondition
deriving DecidableEq, Repr

/-- One per-operation reply from the OVSDB server
(`libovsdb.OperationResult`, the fields the code reads). -/
structure OperationResult where
  error : String
  details : String
deriving DecidableEq, Repr

/-- The error string `doOperations` builds from a failed reply:
`fmt.Errorf` with the reply's error and details. -/
def errFormat (r : OperationResult) : String :=
  r.error ++ "(" ++ r.details ++ ")"

/-- The loop body of `doOperations` (ovsdbdriver.go, lines 202–208).
The Go loop carries the reply index `i` and compares it with the number
of operations; both branches of the `if` return the same formatted
error, which the translation keeps verbatim. -/
def doOpsLoop (nops : Nat) : Nat → List OperationResult → Option String
  | _, [] => none
  | i, r :: rs =>
    if r.error ≠ "" ∧ i < nops then some (errFormat r)
    else if r.error ≠ "" then some (errFormat r)
    else doOpsLoop nops (i + 1) rs

/-- `doOperations` (ovsdbdriver.go, lines 196–212): send the operations
as one transaction and scan the replies.  The server's reply list is an
input here (the `Transact` call's own error is discarded by the Go
code).  A reply list shorter than the operation list is only logged
(`logrus.Errorf`), which has no semantic effect, so the result depends
on the replies alone.  Returns `none` on success, `some e` on the first
reply carrying a non-empty error. -/
def doOperations (ops : List Operation) (reply : List OperationResult) :
    Option String :=
  doOpsLoop ops.length 0 reply

/-! ## AddPort / DelPort operation building (ovsdbdriver.go) -/

/-- The fixed bridge-side constants from ovsdbdriver.go. -/
def intfTable : String := "Interface"

/-- Port table name. -/
def portTable : String := "Port"

/-- Bridge table name. -/
def bridgeTable : String := "Bridge"

/-- The three operations built by `AddPort` (ovsdbdriver.go, lines
58–111): an Interface insert (name, type `"internal"`, the policing
rate / burst fields only when nonzero), a Port insert referencing the
interface through the transaction-local UUID name `"intf"` (vlan mode
`"access"` with tag when `tag ≠ 0`, else `"trunk"`), and a Bridge
mutation appending the port's transaction-local UUID `"port"` to the
`ports` set of the bridge row matched by name. -/
def addPortOps (bridgeName intfName : String) (tag burst bandwidth : Int) :
    List Operation :=
  let intfRow : OVSRow :=
    [("name", OVSValue.str intfName), ("type", OVSValue.str ("internal"))]
      ++ (if bandwidth ≠ 0 then
            [("ingress_policing_rate", OVSValue.int bandwidth)] else [])
      ++ (if burst ≠ 0 then
            [("ingress_policing_burst", OVSValue.int burst)] else [])
  let intfOp : Operation :=
    { op := "insert", table := intfTable, row := intfRow,
      uuidName := some ("intf"), mutations := [], conds := [] }
  let portRow : OVSRow :=
    [("name", OVSValue.str intfName),
     ("interfaces", OVSValue.namedUUID ("intf"))]
      ++ (if tag ≠ 0 then
            [("vlan_mode", OVSValue.str ("access")), ("tag", OVSValue.int tag)]
          else
            [("vlan_mode", OVSValue.str ("trunk"))])
  let portOp : Operation :=
    { op := "insert", table := portTable, row := portRow,
      uuidName := some ("port"), mutations := [], conds := [] }
  let mutOp : Operation :=
    { op := "mutate", table := bridgeTable, row := [], uuidName := none,
      mutations := [{ column := "ports", mutator := "insert",
                      uuids := ["port"] }],
      conds := [{ column := "name", func := "==", value := bridgeName }] }
  [intfOp, portOp, mutOp]

/-- The cached-port scan of `DelPort` (ovsdbdriver.go, lines 132,
150–158).  `portUUID` is initialised to a synthetic UUID equal to the
port's *name* (`libovsdb.UUID{GoUUID: intfName}`); scanning the cached
Port table replaces it with the first row whose `name` field equals the
given name; on a cache miss the synthetic initial value survives. -/
def scanPortUUID (portTbl : List (String × OVSRow)) (intfName : String) :
    List String :=
  match portTbl.find?
      (fun p => lookupA p.2 ("name") == some (OVSValue.str intfName)) with
  | some p => [p.1]
  | none => [intfName]

/-- The three operations built by `DelPort` (ovsdbdriver.go, lines
131–173): delete the Interface and Port rows matched by name, and
mutate the Bridge row (matched by the configured bridge name) removing
`portUUID` — the cache-resolved identifier, or its name-valued fallback
— from its `ports` set. -/
def delPortOps (bridgeName : String) (portTbl : List (String × OVSRow))
    (intfName : String) : List Operation :=
  let cond : OVSCondition :=
    { column := "name", func := "==", value := intfName }
  let intfOp : Operation :=
    { op := "delete", table := intfTable, row := [], uuidName := none,
      mutations := [], conds := [cond] }
  let portOp : Operation :=
    { op := "delete", table := portTable, row := [], uuidName := none,
      mutations := [], conds := [cond] }
  let mutOp : Operation :=
    { op := "mutate", table := bridgeTable, row := [], uuidName := none,
      mutations := [{ column := "ports", mutator := "delete",
                      uuids := scanPortUUID portTbl intfName }],
      conds := [{ column := "name", func := "==", value := bridgeName }] }
  [intfOp, portOp, mutOp]

/-! ## The OVSDB cache (populateCache / Update) -/

/-- A row update from the change feed (`libovsdb.RowUpdate`): the `New`
row, `none` standing for the zero `libovsdb.Row` (which
`reflect.DeepEqual` compares against). -/
structure RowUpdate where
  new : Option OVSRow
deriving DecidableEq, Repr

/-- The change-feed payload (`libovsdb.TableUpdates`): table name to
(row uuid to row update). -/
abbrev TableUpdates := List (String × List (String × RowUpdate))

/-- The cache: table name to (row uuid to row), as in
`map[string]map[libovsdb.UUID]libovsdb.Row`. -/
abbrev OVSCache := List (String × List (String × OVSRow))

/-- Application of one table's row updates (the inner loop of
`populateCache`): a non-empty `New` row is upserted under its uuid, an
empty one removes the entry. -/
def applyRowUpdates (tbl : List (String × OVSRow))
    (rows : List (String × RowUpdate)) : List (String × OVSRow) :=
  rows.foldl
    (fun acc p =>
      match p.2.new with
      | some r => insertA acc p.1 r
      | none => eraseA acc p.1)
    tbl

/-- `populateCache` (ovsdbdriver.go, lines 177–194): for each table in
the update, materialise the table's cache map if missing, then apply
each row update. -/
def populateCache (cache : OVSCache) (updates : TableUpdates) : OVSCache :=
  updates.foldl
    (fun c p =>
      let tbl := (lookupA c p.1).getD []
      insertA c p.1 (applyRowUpdates tbl p.2))
    cache

/-- The `Update` notification callback (ovsdbdriver.go, lines 215–217).
Its body is `panic("not implemented")`: a change-feed notification
delivered after startup panics and never touches the cache.  (Only the
initial snapshot obtained in `NewOvsdbDriver` goes through
`populateCache`.) -/
def ovsdbUpdate (_cache : OVSCache) (_tableUpdates : TableUpdates) :
    GoResult OVSCache :=
  GoResult.gopanic ("not implemented")

/-! ## MAC generation (netutils.go) -/

/-- `net.IP.To4`: a 4-byte address is returned as is; a 16-byte
IPv4-in-IPv6 address (ten zero bytes then `0xff 0xff`) is reduced to
its low four bytes; anything else yields nil (`none`). -/
def ipTo4 (ip : List Nat) : Option (List Nat) :=
  if ip.length = 4 then some ip
  else if ip.length = 16 ∧ ip.take 10 = List.replicate 10 0 ∧
      ip.get? 10 = some 255 ∧ ip.get? 11 = some 255 then
    some (ip.drop 12)
  else none

/-- `genMAC` (netutils.go, lines 10–27).  The six-byte buffer starts
zeroed; byte 0 is `0x02` (unicast, locally administered), byte 1 is
`0x42` (the fixed organization marker).  With `ip = none`
(`GenerateRandomMAC`) the tail is filled by `crypto/rand` — modelled by
the caller-supplied `rnd` bytes.  Otherwise (`GenerateMACFromIP`) Go's
`copy` writes `min 4 (length (To4 ip))` bytes over the zeroed tail:
four bytes for an IPv4 address, nothing when `To4` is nil. -/
def genMAC (ip : Option (List Nat)) (rnd : List Nat) : List Nat :=
  match ip with
  | none => [0x02, 0x42] ++ ((rnd ++ List.replicate 4 0).take 4)
  | some ipv =>
    match ipTo4 ipv with
    | some four => [0x02, 0x42] ++ ((four ++ List.replicate 4 0).take 4)
    | none => [0x02, 0x42, 0, 0, 0, 0]

/-- `GenerateRandomMAC` (netutils.go, lines 30–32). -/
def GenerateRandomMAC (rnd : List Nat) : List Nat :=
  genMAC none rnd

/-- `GenerateMACFromIP` (netutils.go, lines 36–38). -/
def GenerateMACFromIP (ip : List Nat) : List Nat :=
  genMAC (some ip) []

/-! ## Character-level string helpers

Go's `strings.Split` / `strings.Replace` / `strconv` calls are modelled
over `List Char` (via `String.toList` / `String.mk`) so that all
definitions evaluate by kernel reduction. -/

/-- `strings.Split` for a one-character separator. -/
def splitChar (sep : Char) : List Char → List (List Char)
  | [] => [[]]
  | c :: cs =>
    let r := splitChar sep cs
    if c == sep then [] :: r
    else
      match r with
      | h :: t => (c :: h) :: t
      | [] => [[c]]

/-- Decimal parse of a digit string (`strconv.Atoi` on non-negative
input): `none` when empty or containing a non-digit. -/
def charsToNat? (cs : List Char) : Option Nat :=
  if cs ≠ [] ∧ cs.all Char.isDigit then
    some (cs.foldl (fun acc c => acc * 10 + (c.toNat - 48)) 0)
  else none

/-- `strconv.Atoi` sign handling (a leading minus; the error case is
mapped to `none`). -/
def charsToInt? (cs : List Char) : Option Int :=
  match cs with
  | '-' :: rest => (charsToNat? rest).map (fun n => -(n : Int))
  | _ => (charsToNat? cs).map (fun n => (n : Int))

/-- Whether `pat` is a leading segment of the character list. -/
def charsStartWith : List Char → List Char → Bool
  | _, [] => true
  | [], _ :: _ => false
  | c :: cs, p :: ps => c == p && charsStartWith cs ps

/-- `strings.Replace(s, pat, rep, 1)`: replace the first occurrence of
`pat` by `rep`. -/
def replaceFirstChars : List Char → List Char → List Char → List Char
  | [], _, _ => []
  | c :: cs, pat, rep =>
    if charsStartWith (c :: cs) pat then rep ++ (c :: cs).drop pat.length
    else c :: replaceFirstChars cs pat rep

/-! ## IPv4 / CIDR model (net.ParseCIDR, net.IPNet.Contains) -/

/-- Apply a `len`-bit network mask to a 32-bit address value. -/
def maskBits (len ip : Nat) : Nat :=
  ip / 2 ^ (32 - len) * 2 ^ (32 - len)

/-- A parsed `*net.IPNet`: the (already masked, when produced by
`parseCIDR`) address and the mask's prefix length (`Mask.Size`). -/
structure IPNet where
  ip : Nat
  maskLen : Nat
deriving DecidableEq, Repr

/-- `net.IPNet.Contains`: mask the candidate address with the subnet's
mask and compare against the subnet's (masked) address. -/
def ipnetContains (s : IPNet) (ip : Nat) : Bool :=
  maskBits s.maskLen ip == maskBits s.maskLen s.ip

/-- Parse a dotted-quad IPv4 address into its 32-bit value. -/
def parseIPv4 (s : String) : Option Nat :=
  match (splitChar '.' s.toList).mapM charsToNat? with
  | some [a, b, c, d] =>
    if a < 256 ∧ b < 256 ∧ c < 256 ∧ d < 256 then
      some (((a * 256 + b) * 256 + c) * 256 + d)
    else none
  | _ => none

/-- `net.ParseCIDR` restricted to IPv4, returning the second result
(the `*net.IPNet` whose address is masked to the network base); the
first result (the unmasked host address) is discarded by every caller
in this code base. -/
def parseCIDR (s : String) : Option IPNet :=
  match splitChar '/' s.toList with
  | [ipChars, lenChars] =>
    match parseIPv4 (String.mk ipChars), charsToNat? lenChars with
    | some ip, some len =>
      if len ≤ 32 then some { ip := maskBits len ip, maskLen := len }
      else none
    | _, _ => none
  | _ => none

/-! ## Registry data model (ovsdriver.go) -/

/-- `subnet`: the parsed pool and gateway (`net.ParseCIDR` results,
`none` when the parse failed and the Go pointer is nil). -/
structure Subnet where
  subnetIP : Option IPNet
  gwIP : Option IPNet
deriving DecidableEq, Repr

/-- `endpoint`: id, owning network id, generated interface name, MAC
(`none` = nil `net.HardwareAddr`), parsed address (`none` = nil). -/
structure Endpoint where
  id : String
  nid : String
  intfName : String
  mac : Option (List Nat)
  addr : Option IPNet
deriving DecidableEq, Repr

/-- `network`: the per-network record.  `endpoints` is `none` for a nil
Go map (as a struct literal that omits the field leaves it) and
`some m` for an allocated map.  The `driver` back-pointer carries no
state and is omitted. -/
structure Network where
  id : String
  vlan : Int
  gateway : String
  bandwidth : Int
  brust : Int
  endpoints : Option (List (String × Endpoint))
  subnets : List Subnet
deriving DecidableEq, Repr

/-- The `OvsdbDriver`'s own state: the configured bridge name and the
change-feed cache. -/
structure OvsdbState where
  bridgeName : String
  cache : OVSCache
deriving DecidableEq, Repr

/-- The `Driver`'s state: the id-to-network map plus the embedded OVSDB
driver state. -/
structure DriverState where
  networks : List (String × Network)
  ovsdb : OvsdbState
deriving DecidableEq, Repr

/-- External effects, passed explicitly: the result of
`GenerateIfaceName`, veth pair creation/deletion (netlink), the OVSDB
server's reply to a transaction, the interface IP/MAC netlink calls,
and the bytes `crypto/rand` would produce.  `none` from an effect means
the Go call returned a nil error. -/
structure ExtEnv where
  genIfaceName : Except String String
  createVeth : String → String → Option String
  deleteVeth : String → String → Option String
  transactReply : List Operation → List OperationResult
  setIntfIP : String → String → Option String
  setIntfMac : String → String → Option String
  randBytes : List Nat

/-! ## Option parsing (getVlan / getBandwidth / getBrust) -/

/-- `strconv.Atoi` as used here: the error is discarded and the value
defaults to `0`. -/
def atoi (s : String) : Int :=
  match charsToInt? s.toList with
  | some n => n
  | none => 0

/-- The generic option bag `opts[com.docker.network.generic]` reduced
to the three string-valued keys the code reads; a missing or non-string
value is the empty string (the ignored type assertion's zero value). -/
structure GenericOptions where
  vlan : String
  bandwidth : String
  brust : String
deriving DecidableEq, Repr

/-- `getVlan` (ovsdriver.go, lines 465–474). -/
def getVlan (opts : Option GenericOptions) : Int :=
  match opts with
  | none => 0
  | some o => atoi o.vlan

/-- `getBandwidth` (ovsdriver.go, lines 475–484). -/
def getBandwidth (opts : Option GenericOptions) : Int :=
  match opts with
  | none => 0
  | some o => atoi o.bandwidth

/-- `getBrust` (ovsdriver.go, lines 485–494). -/
def getBrust (opts : Option GenericOptions) : Int :=
  match opts with
  | none => 0
  | some o => atoi o.brust

/-! ## Registry helpers -/

/-- One orchestrator-supplied pool/gateway pair
(`pluginNet.IPAMData`, the fields the code reads). -/
structure IPAMData where
  pool : String
  gateway : String
deriving DecidableEq, Repr

/-- `getGatewayIP` (ovsdriver.go, lines 512–531): take the first
pool's gateway string and split it at `/`.  A gateway string without a
slash makes the Go code index `parts[1]` out of range — a panic. -/
def getGatewayIP (ipv4 : List IPAMData) : GoResult (String × String) :=
  let gatewayIP :=
    match ipv4 with
    | [] => ""
    | d :: _ => d.gateway
  if gatewayIP = "" then GoResult.err ("No gateway IP found")
  else
    match splitChar '/' gatewayIP.toList with
    | p0 :: p1 :: _ =>
      if p0 = [] ∨ p1 = [] then
        GoResult.err ("Cannot split gateway IP address")
      else GoResult.ok (String.mk p0, String.mk p1)
    | _ => GoResult.gopanic ("index out of range")

/-- `getOvsPortName` (ovsdriver.go, lines 534–537):
`strings.Replace(intfName, "port", "vport", 1)`. -/
def getOvsPortName (intfName : String) : String :=
  String.mk (replaceFirstChars intfName.toList ("port".toList) ("vport".toList))

/-- `getSubnetforIP` (ovsdriver.go, lines 497–510): walk the subnets in
order; skip those whose mask length differs from the address's; return
the first whose network contains the address.  A nil `subnetIP`
(failed pool parse) makes `.Mask` dereference nil — a panic. -/
def getSubnetforIP : List Subnet → IPNet → GoResult (Option Subnet)
  | [], _ => GoResult.ok none
  | s :: rest, ip =>
    match s.subnetIP with
    | none => GoResult.gopanic ("nil pointer dereference")
    | some sn =>
      if sn.maskLen = ip.maskLen ∧ ipnetContains sn ip.ip then
        GoResult.ok (some s)
      else getSubnetforIP rest ip

/-! ## OvsdbDriver entry points with transaction execution -/

/-- `AddPort` (ovsdbdriver.go, lines 58–128) end to end: build the
three operations, run them as one transaction through `doOperations`,
then set the interface IP and MAC over netlink.  (In the version of
the call site in ovsdriver.go the address/MAC arguments and netlink
steps are absent; the transactional core is identical.)  Also returns
the transactions issued. -/
def ovsdbAddPort (env : ExtEnv) (ovs : OvsdbState) (addr mac intfName : String)
    (tag burst bandwidth : Int) : GoResult Unit × List (List Operation) :=
  let ops := addPortOps ovs.bridgeName intfName tag burst bandwidth
  match doOperations ops (env.transactReply ops) with
  | some e => (GoResult.err e, [ops])
  | none =>
    match env.setIntfIP intfName addr with
    | some e => (GoResult.err e, [ops])
    | none =>
      match env.setIntfMac intfName mac with
      | some e => (GoResult.err e, [ops])
      | none => (GoResult.ok (), [ops])

/-- `DelPort` (ovsdbdriver.go, lines 131–175): build the delete
operations — resolving the port identifier against the cached Port
table, with the synthetic name-valued fallback — and run them as one
transaction.  Also returns the transactions issued. -/
def ovsdbDelPort (env : ExtEnv) (ovs : OvsdbState) (intfName : String) :
    GoResult Unit × List (List Operation) :=
  let ops := delPortOps ovs.bridgeName ((lookupA ovs.cache portTable).getD [])
    intfName
  match doOperations ops (env.transactReply ops) with
  | some e => (GoResult.err e, [ops])
  | none => (GoResult.ok (), [ops])

/-! ## Driver lifecycle operations (ovsdriver.go) -/

/-- `CreateNetworkRequest`: the fields the code reads.  The option bag
is reduced to the generic sub-map's three keys (see `GenericOptions`). -/
structure CreateNetworkRequest where
  networkID : String
  options : Option GenericOptions
  ipv4Data : List IPAMData
deriving DecidableEq, Repr

/-- `CreateNetwork` (ovsdriver.go, lines 92–134): validate id and pool
list, resolve the gateway, derive the subnets by parsing each
pool/gateway pair, and store the new network — with an allocated
(empty) endpoint map — under its id. -/
def CreateNetwork (st : DriverState) (r : CreateNetworkRequest) :
    DriverState × GoResult Unit :=
  if r.networkID = "" then (st, GoResult.err ("invalid network id"))
  else if r.ipv4Data.length = 0 then (st, GoResult.err ("ipv4 pool is empty"))
  else
    match getGatewayIP r.ipv4Data with
    | GoResult.err e => (st, GoResult.err e)
    | GoResult.gopanic p => (st, GoResult.gopanic p)
    | GoResult.ok gw =>
      let n : Network :=
        { id := r.networkID, vlan := getVlan r.options, gateway := gw.1,
          bandwidth := getBandwidth r.options, brust := getBrust r.options,
          endpoints := some [],
          subnets := r.ipv4Data.map (fun d =>
            { subnetIP := parseCIDR d.pool, gwIP := parseCIDR d.gateway }) }
      ({ st with networks := insertA st.networks r.networkID n },
       GoResult.ok ())

/-- `AllocateNetworkRequest`: the fields the code reads.  `ipv4Data`
is `Option` because the code checks the slice against nil (an empty
but non-nil slice passes). -/
structure AllocateNetworkRequest where
  networkID : String
  ipv4Data : Option (List IPAMData)
deriving DecidableEq, Repr

/-- `AllocateNetwork` (ovsdriver.go, lines 175–210): validate id and
(non-nil) ipv4 data, derive the subnets, and store a network record
whose struct literal sets only `id`, `driver` and `subnets` — so its
endpoint map is left nil and the vlan/bandwidth/brust/gateway fields
are zero values.  The supplied options are echoed back unchanged. -/
def AllocateNetwork (st : DriverState) (r : AllocateNetworkRequest) :
    DriverState × GoResult Unit :=
  if r.networkID = "" then
    (st, GoResult.err ("invalid network id for ovs network"))
  else
    match r.ipv4Data with
    | none =>
      (st, GoResult.err ("empty ipv4 data passed during ovs network creation"))
    | some ds =>
      let n : Network :=
        { id := r.networkID, vlan := 0, gateway := "", bandwidth := 0,
          brust := 0, endpoints := none,
          subnets := ds.map (fun d =>
            { subnetIP := parseCIDR d.pool, gwIP := parseCIDR d.gateway }) }
      ({ st with networks := insertA st.networks r.networkID n },
       GoResult.ok ())

/-- `FreeNetwork` (ovsdriver.go, lines 213–234): an empty id is an
error; an unknown id is only logged (`logrus.Debugf`) and the call
returns nil; a known id is removed from the networks map. -/
def FreeNetwork (st : DriverState) (id : String) :
    DriverState × GoResult Unit :=
  if id = "" then
    (st, GoResult.err ("invalid network id passed while freeing ovs network"))
  else
    match lookupA st.networks id with
    | none => (st, GoResult.ok ())
    | some _ =>
      ({ st with networks := eraseA st.networks id }, GoResult.ok ())

/-- The endpoint-teardown loop of `DeleteNetwork` (ovsdriver.go, lines
150–166): for each endpoint with a non-empty interface name, delete
its veth pair and its switch port (`useVeth` is the constant true);
the first failure aborts the loop with an error. -/
def teardownEndpoints (env : ExtEnv) (ovs : OvsdbState) :
    List (String × Endpoint) → Option String
  | [] => none
  | (_, ep) :: rest =>
    if ep.intfName = "" then teardownEndpoints env ovs rest
    else
      let ovsPortName := getOvsPortName ep.intfName
      match env.deleteVeth ep.intfName ovsPortName with
      | some e =>
        some ("delete veth pair failed with InterfaceName=" ++ ep.intfName
          ++ ",peer=" ++ ovsPortName ++ ",err=" ++ e)
      | none =>
        match (ovsdbDelPort env ovs ovsPortName).1 with
        | GoResult.ok _ => teardownEndpoints env ovs rest
        | _ => some ("ovs could not delete port with name " ++ ovsPortName)

/-- `DeleteNetwork` (ovsdriver.go, lines 137–172): validate the id,
look the network up (error when unknown), tear down every registered
endpoint's veth pair and switch port (a nil endpoint map iterates
zero times), then remove the network entry. -/
def DeleteNetwork (env : ExtEnv) (st : DriverState) (nid : String) :
    DriverState × GoResult Unit :=
  if nid = "" then (st, GoResult.err ("invalid network id"))
  else
    match lookupA st.networks nid with
    | none =>
      (st, GoResult.err ("could not find network with id " ++ nid))
    | some n =>
      match teardownEndpoints env st.ovsdb (n.endpoints.getD []) with
      | some e => (st, GoResult.err e)
      | none =>
        ({ st with networks := eraseA st.networks nid }, GoResult.ok ())

/-- `pluginNet.EndpointInterface`, the fields the code reads: the
requested address string and the MAC — already through `net.ParseMAC`,
`none` when absent or unparseable (the code ignores the parse error
and keeps the nil result). -/
structure EndpointInterface where
  address : String
  macAddress : Option (List Nat)
deriving DecidableEq, Repr

/-- `CreateEndpointRequest`: the fields the code reads.  `interface`
is `Option` because the code checks the pointer against nil. -/
structure CreateEndpointRequest where
  networkID : String
  endpointID : String
  intf : Option EndpointInterface
deriving DecidableEq, Repr

/-- `CreateEndpoint` (ovsdriver.go, lines 237–305): validate the ids
and interface, look up the network, parse the address, generate the
interface name, reject a nil address, find a matching subnet (error
`no matching subnet` when none), generate a MAC when none was given,
create the veth pair (`useVeth` is the constant true, so the port type
is the veth type and the switch-side name is `getOvsPortName`), run
the `AddPort` transaction, and only after it succeeds insert the
endpoint into the network's endpoint map — a nil endpoint map makes
that assignment panic.  Returns the new state, the response MAC, and
the transactions issued. -/
def CreateEndpoint (env : ExtEnv) (st : DriverState)
    (r : CreateEndpointRequest) :
    DriverState × GoResult (List Nat) × List (List Operation) :=
  if r.networkID = "" then
    (st, GoResult.err ("invalid network id passed while create ovs endpoint"),
     [])
  else if r.endpointID = "" then
    (st, GoResult.err ("invalid endpoint id passed while create ovs endpoint"),
     [])
  else
    match r.intf with
    | none =>
      (st, GoResult.err ("invalid interface passed while create ovs endpoint"),
       [])
    | some intf =>
      match lookupA st.networks r.networkID with
      | none =>
        (st,
         GoResult.err ("ovs network with id " ++ r.networkID ++ " not found"),
         [])
      | some n =>
        let addr := parseCIDR intf.address
        let mac := intf.macAddress
        match env.genIfaceName with
        | Except.error e =>
          (st, GoResult.err ("ovs generate interface name err=" ++ e), [])
        | Except.ok intfName =>
          match addr with
          | none =>
            (st,
             GoResult.err ("create endpoint was not passed interface IP address"),
             [])
          | some a =>
            match getSubnetforIP n.subnets a with
            | GoResult.gopanic p => (st, GoResult.gopanic p, [])
            | GoResult.err e => (st, GoResult.err e, [])
            | GoResult.ok none =>
              (st,
               GoResult.err ("no matching subnet for IP in network "
                 ++ r.networkID),
               [])
            | GoResult.ok (some _) =>
              let epMac := match mac with
                | some m => m
                | none => genMAC none env.randBytes
              let ovsPortName := getOvsPortName intfName
              match env.createVeth intfName ovsPortName with
              | some e => (st, GoResult.err e, [])
              | none =>
                let ops := addPortOps st.ovsdb.bridgeName ovsPortName
                  n.vlan n.brust n.bandwidth
                match doOperations ops (env.transactReply ops) with
                | some e =>
                  (st,
                   GoResult.err ("ovs create endpoint error with intfName="
                     ++ ovsPortName ++ ",err=" ++ e),
                   [ops])
                | none =>
                  let ep : Endpoint :=
                    { id := r.endpointID, nid := r.networkID,
                      intfName := intfName, mac := some epMac, addr := some a }
                  match n.endpoints with
                  | none =>
                    (st, GoResult.gopanic ("assignment to entry in nil map"),
                     [ops])
                  | some eps =>
                    let n' : Network :=
                      { n with endpoints := some (insertA eps r.endpointID ep) }
                    ({ st with networks := insertA st.networks r.networkID n' },
                     GoResult.ok epMac, [ops])

/-- `DeleteEndpoint` (ovsdriver.go, lines 308–343): validate the ids,
look up the network and the endpoint (reading a nil endpoint map
yields nil), succeed as a no-op when the interface name is empty,
delete the veth pair, and remove the endpoint from the network's
endpoint map.  No switch-database transaction is issued. -/
def DeleteEndpoint (env : ExtEnv) (st : DriverState) (nid eid : String) :
    DriverState × GoResult Unit × List (List Operation) :=
  if nid = "" then (st, GoResult.err ("invalid network id"), [])
  else if eid = "" then (st, GoResult.err ("invalid endpoint id"), [])
  else
    match lookupA st.networks nid with
    | none => (st, GoResult.err ("network id " ++ nid ++ " not found"), [])
    | some n =>
      match (n.endpoints.getD []).find? (fun p => p.1 == eid) with
      | none => (st, GoResult.err ("endpoint id " ++ eid ++ " not found"), [])
      | some p =>
        let ep := p.2
        if ep.intfName = "" then (st, GoResult.ok (), [])
        else
          let ovsPortName := getOvsPortName ep.intfName
          match env.deleteVeth ep.intfName ovsPortName with
          | some e =>
            (st,
             GoResult.err ("delete veth pair failed with InterfaceName="
               ++ ep.intfName ++ ",peer=" ++ ovsPortName ++ ",err=" ++ e),
             [])
          | none =>
            let n' : Network :=
              { n with endpoints := n.endpoints.map (fun eps => eraseA eps eid) }
            ({ st with networks := insertA st.networks nid n' },
             GoResult.ok (), [])

/-- `Leave` (ovsdriver.go, lines 406–439): validate the ids, look up
the network and the endpoint, reject an empty interface name, and
delete the switch port transactionally (`DelPort` on the veth-derived
port name).  The endpoint map and the networks map are not modified. -/
def Leave (env : ExtEnv) (st : DriverState) (nid eid : String) :
    DriverState × GoResult Unit × List (List Operation) :=
  if nid = "" then (st, GoResult.err ("invalid network id"), [])
  else if eid = "" then (st, GoResult.err ("invalid endpoint id"), [])
  else
    match lookupA st.networks nid with
    | none => (st, GoResult.err ("network id " ++ nid ++ " not found"), [])
    | some n =>
      match (n.endpoints.getD []).find? (fun p => p.1 == eid) with
      | none => (st, GoResult.err ("endpoint id " ++ eid ++ " not found"), [])
      | some p =>
        let ep := p.2
        if ep.intfName = "" then
          (st, GoResult.err ("intfName empty"), [])
        else
          let ovsPortName := getOvsPortName ep.intfName
          match ovsdbDelPort env st.ovsdb ovsPortName with
          | (GoResult.err e, txns) =>
            (st,
             GoResult.err ("ovs delete endpoint failed with InterfaceName="
               ++ ep.intfName ++ ",err=" ++ e),
             txns)
          | (_, txns) => (st, GoResult.ok (), txns)

/-! ## Shared concrete fixtures (used by witnesses and counterexamples) -/

/-- An environment whose external calls all succeed: interface name
`port001` is generated, veth and netlink calls return nil errors, and
the OVSDB server answers every operation with an error-free reply. -/
def envOk : ExtEnv :=
  { genIfaceName := Except.ok ("port001"),
    createVeth := fun _ _ => none,
    deleteVeth := fun _ _ => none,
    transactReply := fun _ => [{ error := "", details := "" },
                               { error := "", details := "" },
                               { error := "", details := "" }],
    setIntfIP := fun _ _ => none,
    setIntfMac := fun _ _ => none,
    randBytes := [9, 9, 9, 9] }

/-- Like `envOk`, but the OVSDB server rejects the first operation of
every transaction. -/
def envTxnFail : ExtEnv :=
  { envOk with
    transactReply := fun _ => [{ error := "constraint violation",
                                 details := "duplicate name" }] }

/-- The initial driver state: empty registry, bridge `ovs-br0`
(the `ovsBridgeName` constant), empty cache. -/
def st0 : DriverState :=
  { networks := [], ovsdb := { bridgeName := "ovs-br0", cache := [] } }

/-- A create-network request with the single pool `10.0.0.0/24`. -/
def rqNet1 : CreateNetworkRequest :=
  { networkID := "n1", options := none,
    ipv4Data := [{ pool := "10.0.0.0/24", gateway := "10.0.0.254/24" }] }

/-- The state after creating network `n1` with pool `10.0.0.0/24`. -/
def stNet1 : DriverState := (CreateNetwork st0 rqNet1).1

/-- A create-endpoint request for `e1` at `10.0.0.5/24` on `n1`. -/
def rqEp1 : CreateEndpointRequest :=
  { networkID := "n1", endpointID := "e1",
    intf := some { address := "10.0.0.5/24", macAddress := none } }

/-- A create-endpoint request at `10.0.1.5/24` (outside the pool). -/
def rqEp2 : CreateEndpointRequest :=
  { networkID := "n1", endpointID := "e1",
    intf := some { address := "10.0.1.5/24", macAddress := none } }

/-- The state after also creating endpoint `e1` on `n1`. -/
def stEp1 : DriverState := (CreateEndpoint envOk stNet1 rqEp1).1

/-- An allocate-network request mirroring `rqNet1`. -/
def rqAlloc1 : AllocateNetworkRequest :=
  { networkID := "n1",
    ipv4Data := some [{ pool := "10.0.0.0/24", gateway := "10.0.0.254/24" }] }

/-- The state after `AllocateNetwork` of `n1` (nil endpoint map). -/
def stAlloc1 : DriverState := (AllocateNetwork st0 rqAlloc1).1

/-- The parsed subnet `10.0.0.0/24` (with its gateway `10.0.0.254/24`,
masked to the network base by `parseCIDR`). -/
def subnet24 : Subnet :=
  { subnetIP := some { ip := 167772160, maskLen := 24 },
    gwIP := some { ip := 167772160, maskLen := 24 } }

/-- The subnet list of the `10.0.0.0/24` network. -/
def subnets24 : List Subnet := [subnet24]

/-- The network record `CreateNetwork` stores for `rqNet1`. -/
def net1 : Network :=
  { id := "n1", vlan := 0, gateway := "10.0.0.254", bandwidth := 0,
    brust := 0, endpoints := some [], subnets := subnets24 }

/-- The endpoint record `CreateEndpoint` registers for `rqEp1` under
`envOk`. -/
def ep1 : Endpoint :=
  { id := "e1", nid := "n1", intfName := "port001",
    mac := some [2, 66, 9, 9, 9, 9],
    addr := some { ip := 167772160, maskLen := 24 } }

/-- `net1` with endpoint `e1` registered. -/
def net1Ep : Network := { net1 with endpoints := some [("e1", ep1)] }

/-- The network record `AllocateNetwork` stores for `rqAlloc1`: zero
values everywhere the struct literal is silent, and a nil endpoint
map. -/
def netAlloc1 : Network :=
  { id := "n1", vlan := 0, gateway := "", bandwidth := 0, brust := 0,
    endpoints := none, subnets := subnets24 }

/-- The network value `DeleteEndpoint` writes back: the endpoint map
with `eid` removed. -/
def delEpNet (n : Network) (eid : String) : Network :=
  { n with endpoints := n.endpoints.map (fun eps => eraseA eps eid) }

/-! ## Helper lemmas -/

/-- `doOpsLoop` ignores the operation count and the running index: both
branches of the Go `if` return the same formatted error. -/
theorem doOpsLoop_indep (reply : List OperationResult) :
    ∀ n i n' i', doOpsLoop n i reply = doOpsLoop n' i' reply := by
  induction reply with
  | nil => intro n i n' i'; rfl
  | cons r rs ih =>
    intro n i n' i'
    by_cases h : r.error = ""
    · simp only [doOpsLoop, h, ne_eq, not_true_eq_false, false_and, if_false,
        ite_false]
      exact ih n (i + 1) n' (i' + 1)
    · by_cases h1 : i < n <;> by_cases h2 : i' < n' <;>
        simp [doOpsLoop, h, h1, h2]

/-- `doOpsLoop` returns `none` exactly when no reply carries an
error. -/
theorem doOpsLoop_none_iff (reply : List OperationResult) :
    ∀ n i, doOpsLoop n i reply = none ↔ ∀ r ∈ reply, r.error = "" := by
  induction reply with
  | nil => intro n i; simp [doOpsLoop]
  | cons r rs ih =>
    intro n i
    by_cases h : r.error = ""
    · simp [doOpsLoop, h, ih n (i + 1)]
    · by_cases h1 : i < n <;> simp [doOpsLoop, h, h1]

/-- A `some` result of `doOpsLoop` is the formatted error of a reply
that carries one. -/
theorem doOpsLoop_some (reply : List OperationResult) :
    ∀ n i e, doOpsLoop n i reply = some e →
      ∃ r ∈ reply, r.error ≠ "" ∧ e = errFormat r := by
  induction reply with
  | nil => intro n i e h; simp [doOpsLoop] at h
  | cons r rs ih =>
    intro n i e h
    by_cases hr : r.error = ""
    · simp [doOpsLoop, hr] at h
      obtain ⟨r', hr', he⟩ := ih n (i + 1) e h
      exact ⟨r', by simp [hr'], he⟩
    · by_cases h1 : i < n <;> simp [doOpsLoop, hr, h1] at h <;>
        exact ⟨r, by simp, hr, h.symm⟩

/-! ## Claim theorems -/

/-- C5: the transaction executor returns an error iff some reply in the
reply list carries a non-empty error, that error combines the reply's
message and detail (`errFormat`), and the result does not depend on the
operation list at all — so a reply list shorter than the operation list
(only logged) neither fails nor succeeds the call by itself. -/
theorem doOperations_error_iff (ops ops' : List Operation)
    (reply : List OperationResult) :
    (doOperations ops reply = none ↔ ∀ r ∈ reply, r.error = "") ∧
    (∀ e, doOperations ops reply = some e →
      ∃ r ∈ reply, r.error ≠ "" ∧ e = errFormat r) ∧
    doOperations ops reply = doOperations ops' reply :=
  ⟨doOpsLoop_none_iff reply ops.length 0,
   fun e h => doOpsLoop_some reply ops.length 0 e h,
   doOpsLoop_indep reply ops.length 0 ops'.length 0⟩

/-- C5 witness: the executor succeeds on error-free replies and fails
with the combined message on an erroring reply, evaluated at concrete
inputs (including a reply list shorter than the operation list). -/
theorem doOperations_error_iff_witness :
    (doOperations (addPortOps ("ovsbr") ("p1") 0 0 0)
        [{ error := "constraint violation", details := "dup" }] = none ↔
      ∀ r ∈ [({ error := "constraint violation", details := "dup" } :
          OperationResult)], r.error = "") ∧
    (∀ e, doOperations (addPortOps ("ovsbr") ("p1") 0 0 0)
        [{ error := "constraint violation", details := "dup" }] = some e →
      ∃ r ∈ [({ error := "constraint violation", details := "dup" } :
          OperationResult)], r.error ≠ "" ∧ e = errFormat r) ∧
    doOperations (addPortOps ("ovsbr") ("p1") 0 0 0)
        [{ error := "constraint violation", details := "dup" }] =
      doOperations []
        [{ error := "constraint violation", details := "dup" }] :=
  doOperations_error_iff (addPortOps ("ovsbr") ("p1") 0 0 0) []
    [{ error := "constraint violation", details := "dup" }]

/-- C9: every generated MAC is six bytes, starts with `0x02` (whose two
low-order bits are `10` in binary: unicast, locally administered)
followed by the fixed organization marker `0x42`; in deterministic mode
the four remaining bytes are the caller-supplied IPv4 address's four
bytes, so distinct IPv4 addresses yield distinct MACs. -/
theorem genMAC_layout_and_deterministic :
    (∀ ip rnd, ∃ tail, genMAC ip rnd = 0x02 :: 0x42 :: tail ∧
      tail.length = 4 ∧ (genMAC ip rnd).length = 6 ∧ 0x02 % 4 = 2) ∧
    (∀ ip4 rnd, ip4.length = 4 →
      genMAC (some ip4) rnd = [0x02, 0x42] ++ ip4) ∧
    (∀ ip1 ip2 r1 r2, ip1.length = 4 → ip2.length = 4 → ip1 ≠ ip2 →
      genMAC (some ip1) r1 ≠ genMAC (some ip2) r2) := by
  have hdet : ∀ (ip4 : List Nat) (rnd : List Nat), ip4.length = 4 →
      genMAC (some ip4) rnd = [0x02, 0x42] ++ ip4 := by
    intro ip4 rnd h
    have h4 : ipTo4 ip4 = some ip4 := by simp [ipTo4, h]
    simp only [genMAC, h4]
    rw [← h, List.take_left]
  refine ⟨?_, hdet, ?_⟩
  · intro ip rnd
    obtain ⟨tail, htail, hlen⟩ :
        ∃ t, genMAC ip rnd = 0x02 :: 0x42 :: t ∧ t.length = 4 := by
      cases ip with
      | none =>
        refine ⟨(rnd ++ List.replicate 4 0).take 4, by simp [genMAC], ?_⟩
        have hl : ((rnd ++ List.replicate 4 0).take 4).length =
            min 4 (rnd.length + 4) := by simp [List.length_take]
        omega
      | some ipv =>
        cases h4 : ipTo4 ipv with
        | none => exact ⟨[0, 0, 0, 0], by simp [genMAC, h4], rfl⟩
        | some four =>
          refine ⟨(four ++ List.replicate 4 0).take 4,
            by simp [genMAC, h4], ?_⟩
          have hl : ((four ++ List.replicate 4 0).take 4).length =
              min 4 (four.length + 4) := by simp [List.length_take]
          omega
    exact ⟨tail, htail, hlen, by rw [htail]; simp [hlen], rfl⟩
  · intro ip1 ip2 r1 r2 h1 h2 hne
    rw [hdet ip1 r1 h1, hdet ip2 r2 h2]
    intro hcontra
    exact hne (List.append_cancel_left hcontra)

/-- C9 witness: two concrete distinct IPv4 addresses receive distinct
MAC addresses in deterministic mode. -/
theorem genMAC_layout_witness :
    genMAC (some [10, 0, 0, 5]) [] ≠ genMAC (some [10, 0, 0, 6]) [] :=
  genMAC_layout_and_deterministic.2.2 [10, 0, 0, 5] [10, 0, 0, 6] [] []
    (by decide) (by decide) (by decide)

/-- C1 (code bug): `DelPort` on a cache miss.  With the cached Port
table empty, the scan leaves the synthetic identifier equal to the
port's *name* in place, the transaction is issued anyway (with that
guessed identifier inside the Bridge mutation), and on an error-free
reply the call returns success — it does not fail explicitly as the
specification requires. -/
theorem delPort_cache_miss_uses_guessed_identifier :
    scanPortUUID [] ("p1") = ["p1"] ∧
    (ovsdbDelPort envOk { bridgeName := "ovsbr", cache := [] } ("p1")).2 =
      [[{ op := "delete", table := "Interface", row := [], uuidName := none,
          mutations := [],
          conds := [{ column := "name", func := "==", value := "p1" }] },
        { op := "delete", table := "Port", row := [], uuidName := none,
          mutations := [],
          conds := [{ column := "name", func := "==", value := "p1" }] },
        { op := "mutate", table := "Bridge", row := [], uuidName := none,
          mutations := [{ column := "ports", mutator := "delete",
                          uuids := ["p1"] }],
          conds := [{ column := "name", func := "==", value := "ovsbr" }] }]] ∧
    (ovsdbDelPort envOk { bridgeName := "ovsbr", cache := [] } ("p1")).1 =
      GoResult.ok () := by
  decide

/-- C6 (code bug): a change-feed notification delivered after startup
goes to the `Update` callback, which panics (`not implemented`) and
never touches the cache — while the same payload pushed through
`populateCache` (as the initial snapshot is) would upsert the non-empty
row, and an empty row value would remove the entry. -/
theorem update_callback_panics_instead_of_applying :
    ovsdbUpdate []
        [("Port", [("u1", { new := some [("name", OVSValue.str ("p1"))] })])] =
      GoResult.gopanic ("not implemented") ∧
    populateCache []
        [("Port", [("u1", { new := some [("name", OVSValue.str ("p1"))] })])] =
      [("Port", [("u1", [("name", OVSValue.str ("p1"))])])] ∧
    populateCache [("Port", [("u1", [("name", OVSValue.str ("p1"))])])]
        [("Port", [("u1", { new := none })])] =
      [("Port", [])] := by
  decide

/-- C7 counterexample: `FreeNetwork` on an unknown (non-empty) id
returns success — `GoResult.ok`, not an error — refuting the claim that
both `DeleteNetwork` and `FreeNetwork` fail on every unknown id. -/
theorem freeNetwork_unknown_id_returns_ok :
    lookupA st0.networks ("n1") = none ∧
    FreeNetwork st0 ("n1") = (st0, GoResult.ok ()) := by
  decide

/-- C7 (amended): on an id absent from the networks map,
`DeleteNetwork` returns an error and leaves the map unchanged, while
`FreeNetwork` also leaves the map unchanged but returns an error only
for the empty id; on an unknown non-empty id it merely logs and
returns success. -/
theorem deleteNetwork_freeNetwork_unknown_id (env : ExtEnv)
    (st : DriverState) (id : String)
    (h : lookupA st.networks id = none) :
    (DeleteNetwork env st id).1 = st ∧
    (DeleteNetwork env st id).2.isErr = true ∧
    (FreeNetwork st id).1 = st ∧
    (id = "" → (FreeNetwork st id).2.isErr = true) ∧
    (id ≠ "" → (FreeNetwork st id).2 = GoResult.ok ()) := by
  by_cases hid : id = "" <;>
    simp [DeleteNetwork, FreeNetwork, h, hid, GoResult.isErr]

/-- C7 witness: evaluated on the empty registry and the unknown id
`n1`. -/
theorem deleteNetwork_freeNetwork_unknown_id_witness :
    (DeleteNetwork envOk st0 ("n1")).1 = st0 ∧
    (FreeNetwork st0 ("n1")).2 = GoResult.ok () :=
  ⟨(deleteNetwork_freeNetwork_unknown_id envOk st0 ("n1") (by decide)).1,
   (deleteNetwork_freeNetwork_unknown_id envOk st0 ("n1")
      (by decide)).2.2.2.2 (by decide)⟩

/-! ## Map lemmas and further helpers -/

/-- Lookup in the empty map. -/
theorem lookupA_nil {α : Type} (k : String) :
    lookupA ([] : List (String × α)) k = none := rfl

/-- Lookup steps through a cons cell by key comparison. -/
theorem lookupA_cons {α : Type} (k' : String) (v : α) (tl : List (String × α))
    (k : String) :
    lookupA ((k', v) :: tl) k = if k' = k then some v else lookupA tl k := by
  simp only [lookupA, List.find?]
  by_cases h : k' = k
  · simp [h]
  · have hb : (k' == k) = false := beq_eq_false_iff_ne.mpr h
    simp [h, hb]

/-- After `delete(m, k)` no entry with key `k` remains. -/
theorem find?_eraseA {α : Type} (m : List (String × α)) (k : String) :
    (eraseA m k).find? (fun p => p.1 == k) = none := by
  rw [List.find?_eq_none]
  intro x hx
  simp only [eraseA, List.mem_filter, bne_iff_ne, ne_eq] at hx
  simp [hx.2]

/-- After `m[k] = v`, looking up `k` yields `v`. -/
theorem lookupA_insertA_self {α : Type} (m : List (String × α)) (k : String)
    (v : α) : lookupA (insertA m k v) k = some v := by
  by_cases hf : (m.find? (fun p => p.1 == k)).isSome
  · obtain ⟨p₀, hp₀⟩ := Option.isSome_iff_exists.mp hf
    have hk : p₀.1 = k := by
      have h := List.find?_some hp₀
      simpa using h
    have hcomp : (fun p : String × α =>
        (if p.1 = k then (k, v) else p).1 == k) = fun p => p.1 == k := by
      funext p
      by_cases h : p.1 = k <;> simp [h]
    simp [insertA, hf, lookupA, List.find?_map, Function.comp_def, hcomp,
      hp₀, hk]
  · have hnone : m.find? (fun p => p.1 == k) = none :=
      Option.not_isSome_iff_eq_none.mp hf
    simp [insertA, hf, lookupA, List.find?_append, hnone]

/-- `DelPort` issues its three-operation transaction unconditionally
(whatever the reply). -/
theorem ovsdbDelPort_txns (env : ExtEnv) (ovs : OvsdbState)
    (intfName : String) :
    (ovsdbDelPort env ovs intfName).2 =
      [delPortOps ovs.bridgeName ((lookupA ovs.cache portTable).getD [])
        intfName] := by
  simp only [ovsdbDelPort]
  split <;> rfl

/-- C8: `AddPort` builds exactly three operations and hands them to the
transaction executor as one transaction: an Interface insert whose row
has the name and type and contains the policing-rate / policing-burst
fields iff the bandwidth / burst argument is nonzero; a Port insert
referencing the interface through the transaction-local identifier
`intf`; and a Bridge mutation, matched by the configured bridge name,
appending the port's transaction-local identifier `port` to its `ports`
set.  The Port row has vlan mode `trunk` when the tag is `0`, and
`access` with that tag otherwise. -/
theorem addPort_builds_three_ops (env : ExtEnv) (ovs : OvsdbState)
    (addr mac intfName : String) (tag burst bandwidth : Int) :
    (ovsdbAddPort env ovs addr mac intfName tag burst bandwidth).2 =
      [addPortOps ovs.bridgeName intfName tag burst bandwidth] ∧
    ∃ iOp pOp mOp,
      addPortOps ovs.bridgeName intfName tag burst bandwidth =
        [iOp, pOp, mOp] ∧
      iOp.op = "insert" ∧ iOp.table = "Interface" ∧
      iOp.uuidName = some ("intf") ∧
      lookupA iOp.row ("name") = some (OVSValue.str intfName) ∧
      lookupA iOp.row ("type") = some (OVSValue.str ("internal")) ∧
      lookupA iOp.row ("ingress_policing_rate") =
        (if bandwidth ≠ 0 then some (OVSValue.int bandwidth) else none) ∧
      lookupA iOp.row ("ingress_policing_burst") =
        (if burst ≠ 0 then some (OVSValue.int burst) else none) ∧
      pOp.op = "insert" ∧ pOp.table = "Port" ∧
      pOp.uuidName = some ("port") ∧
      lookupA pOp.row ("name") = some (OVSValue.str intfName) ∧
      lookupA pOp.row ("interfaces") = some (OVSValue.namedUUID ("intf")) ∧
      lookupA pOp.row ("vlan_mode") =
        (if tag = 0 then some (OVSValue.str ("trunk"))
         else some (OVSValue.str ("access"))) ∧
      lookupA pOp.row ("tag") =
        (if tag = 0 then none else some (OVSValue.int tag)) ∧
      mOp.op = "mutate" ∧ mOp.table = "Bridge" ∧
      mOp.mutations = [{ column := "ports", mutator := "insert",
                         uuids := ["port"] }] ∧
      mOp.conds = [{ column := "name", func := "==",
                     value := ovs.bridgeName }] := by
  constructor
  · simp only [ovsdbAddPort]
    repeat' split
    all_goals rfl
  · refine ⟨_, _, _, rfl, rfl, rfl, rfl, ?_, ?_, ?_, ?_, rfl, rfl, rfl,
      ?_, ?_, ?_, ?_, rfl, rfl, rfl, rfl⟩ <;>
      by_cases hb : bandwidth = 0 <;> by_cases hbu : burst = 0 <;>
      by_cases ht : tag = 0 <;>
      simp [addPortOps, lookupA_cons, lookupA_nil, hb, hbu, ht]

/-- C4: subnet validation succeeds iff some subnet has the same mask
length as the requested address and contains its IP (for networks whose
pools all parsed); when none matches, `CreateEndpoint` fails with the
`no matching subnet` error, leaving the state untouched and issuing no
transaction; and on the concrete `10.0.0.0/24` network, `10.0.0.5/24`
resolves to that subnet while `10.0.1.5/24` resolves to none. -/
theorem getSubnetforIP_matches_iff :
    (∀ (subnets : List Subnet) (ip : IPNet),
      (∀ s ∈ subnets, s.subnetIP ≠ none) →
      ((∃ s, getSubnetforIP subnets ip = GoResult.ok (some s)) ↔
        ∃ s ∈ subnets, ∃ sn, s.subnetIP = some sn ∧
          sn.maskLen = ip.maskLen ∧ ipnetContains sn ip.ip = true)) ∧
    (∀ env st r intf n a nm,
      r.networkID ≠ "" → r.endpointID ≠ "" → r.intf = some intf →
      lookupA st.networks r.networkID = some n →
      env.genIfaceName = Except.ok nm →
      parseCIDR intf.address = some a →
      getSubnetforIP n.subnets a = GoResult.ok none →
      CreateEndpoint env st r =
        (st, GoResult.err ("no matching subnet for IP in network " ++
          r.networkID), [])) ∧
    (parseCIDR ("10.0.0.5/24")).map (fun a => getSubnetforIP subnets24 a) =
      some (GoResult.ok (some subnet24)) ∧
    (parseCIDR ("10.0.1.5/24")).map (fun a => getSubnetforIP subnets24 a) =
      some (GoResult.ok none) ∧
    (lookupA stNet1.networks ("n1")).map (fun n => n.subnets) =
      some subnets24 ∧
    CreateEndpoint envOk stNet1 rqEp2 =
      (stNet1,
       GoResult.err ("no matching subnet for IP in network n1"), []) := by
  refine ⟨?_, ?_, by decide, by decide, by decide, by decide⟩
  · intro subnets ip
    induction subnets with
    | nil => intro _; simp [getSubnetforIP]
    | cons s rest ih =>
      intro h
      obtain ⟨sn, hsn⟩ : ∃ sn, s.subnetIP = some sn := by
        cases hs : s.subnetIP with
        | none => exact absurd hs (h s (List.mem_cons_self s rest))
        | some sn => exact ⟨sn, rfl⟩
      by_cases hcond : sn.maskLen = ip.maskLen ∧ ipnetContains sn ip.ip = true
      · constructor
        · intro _
          exact ⟨s, List.mem_cons_self s rest, sn, hsn, hcond.1, hcond.2⟩
        · intro _
          exact ⟨s, by simp [getSubnetforIP, hsn, hcond.1, hcond.2]⟩
      · have hrec : getSubnetforIP (s :: rest) ip = getSubnetforIP rest ip := by
          simp only [getSubnetforIP, hsn]
          rw [if_neg hcond]
        rw [hrec, ih (fun s' hs' => h s' (List.mem_cons_of_mem s hs'))]
        constructor
        · rintro ⟨s', hmem, sn', hsn', hlen, hcont⟩
          exact ⟨s', List.mem_cons_of_mem s hmem, sn', hsn', hlen, hcont⟩
        · rintro ⟨s', hmem, sn', hsn', hlen, hcont⟩
          rcases List.mem_cons.mp hmem with rfl | hmem'
          · rw [hsn] at hsn'
            cases hsn'
            exact absurd ⟨hlen, hcont⟩ hcond
          · exact ⟨s', hmem', sn', hsn', hlen, hcont⟩
  · intro env st r intf n a nm h1 h2 h3 h4 hgen h6 h7
    simp [CreateEndpoint, h1, h2, h3, h4, hgen, h6, h7]

/-- C4 witness: the out-of-pool request `10.0.1.5/24` fails with the
`no matching subnet` error on the concrete network. -/
theorem getSubnetforIP_matches_iff_witness :
    CreateEndpoint envOk stNet1 rqEp2 =
      (stNet1, GoResult.err ("no matching subnet for IP in network n1"),
       []) :=
  getSubnetforIP_matches_iff.2.1 envOk stNet1 rqEp2
    { address := "10.0.1.5/24", macAddress := none } net1
    { ip := 167772416, maskLen := 24 } ("port001")
    (by decide) (by decide) (by decide) (by decide) rfl (by decide)
    (by decide)

/-- C2 counterexample: on a registered endpoint (`e1` on `n1`, with a
non-empty interface name), `DeleteEndpoint` succeeds while issuing *no*
switch-database transaction, and `Leave` succeeds while leaving the
driver state — in particular the network's endpoint map, where `e1` is
still present — completely unchanged.  This refutes the claim that
DeleteEndpoint removes the switch port transactionally and that Leave
removes the endpoint from the endpoint map. -/
theorem deleteEndpoint_leave_counterexample :
    (DeleteEndpoint envOk stEp1 ("n1") ("e1")).2.2 = [] ∧
    (DeleteEndpoint envOk stEp1 ("n1") ("e1")).2.1 = GoResult.ok () ∧
    (Leave envOk stEp1 ("n1") ("e1")).1 = stEp1 ∧
    (Leave envOk stEp1 ("n1") ("e1")).2.1 = GoResult.ok () ∧
    (lookupA (Leave envOk stEp1 ("n1") ("e1")).1.networks ("n1")).map
        (fun n => ((n.endpoints.getD []).find?
          (fun p => p.1 == "e1")).isSome) = some true := by
  decide

/-- C2 (amended): for an existing network and endpoint with a non-empty
interface name, `DeleteEndpoint` tears down the veth pair and removes
the endpoint from the network's endpoint map but issues no
switch-database transaction, while `Leave` issues the `DelPort`
transaction for the switch port but leaves the registry (networks map
and endpoint map) unchanged. -/
theorem deleteEndpoint_leave_amended (env : ExtEnv) (st : DriverState)
    (nid eid : String) (n : Network) (ep : Endpoint)
    (h1 : nid ≠ "") (h2 : eid ≠ "")
    (h3 : lookupA st.networks nid = some n)
    (h4 : (n.endpoints.getD []).find? (fun p => p.1 == eid) = some (eid, ep))
    (h5 : ep.intfName ≠ "")
    (h6 : env.deleteVeth ep.intfName (getOvsPortName ep.intfName) = none) :
    DeleteEndpoint env st nid eid =
      ({ st with networks := insertA st.networks nid (delEpNet n eid) },
       GoResult.ok (), []) ∧
    (∀ eps, (delEpNet n eid).endpoints = some eps →
      eps.find? (fun p => p.1 == eid) = none) ∧
    (Leave env st nid eid).1 = st ∧
    (Leave env st nid eid).2.2 =
      [delPortOps st.ovsdb.bridgeName
        ((lookupA st.ovsdb.cache portTable).getD [])
        (getOvsPortName ep.intfName)] := by
  refine ⟨?_, ?_, ?_, ?_⟩
  · simp [DeleteEndpoint, delEpNet, h1, h2, h3, h4, h5, h6]
  · intro eps heps
    cases he : n.endpoints with
    | none => simp [delEpNet, he] at heps
    | some e =>
      simp [delEpNet, he] at heps
      rw [← heps]
      exact find?_eraseA e eid
  · rcases hdp : ovsdbDelPort env st.ovsdb (getOvsPortName ep.intfName)
      with ⟨res, txns⟩
    cases res <;> simp [Leave, h1, h2, h3, h4, h5, hdp]
  · rcases hdp : ovsdbDelPort env st.ovsdb (getOvsPortName ep.intfName)
      with ⟨res, txns⟩
    have htx := ovsdbDelPort_txns env st.ovsdb (getOvsPortName ep.intfName)
    rw [hdp] at htx
    cases res <;> simp [Leave, h1, h2, h3, h4, h5, hdp] <;> exact htx

/-- C2 witness: evaluated on the concrete registered endpoint. -/
theorem deleteEndpoint_leave_amended_witness :
    (Leave envOk stEp1 ("n1") ("e1")).1 = stEp1 :=
  (deleteEndpoint_leave_amended envOk stEp1 ("n1") ("e1") net1Ep ep1
    (by decide) (by decide) (by decide) (by decide) (by decide)
    (by decide)).2.2.1

/-- C3: the endpoint is inserted into the network's endpoint map only
after the `AddPort` transaction returned success — whenever
`CreateEndpoint` changes the driver state, the (single) transaction it
issued was error-free and the call returned success — and whenever the
issued transaction's reply carries an error, `CreateEndpoint` returns
an error and the networks/endpoint maps are exactly as before the
call. -/
theorem createEndpoint_txn_ordering (env : ExtEnv) (st : DriverState)
    (r : CreateEndpointRequest) :
    ((CreateEndpoint env st r).1 ≠ st →
      ∃ ops m, (CreateEndpoint env st r).2.2 = [ops] ∧
        doOperations ops (env.transactReply ops) = none ∧
        (CreateEndpoint env st r).2.1 = GoResult.ok m) ∧
    (∀ ops, (CreateEndpoint env st r).2.2 = [ops] →
      (doOperations ops (env.transactReply ops)).isSome = true →
      (CreateEndpoint env st r).2.1.isErr = true ∧
      (CreateEndpoint env st r).1 = st) := by
  simp only [CreateEndpoint]
  repeat' split
  all_goals constructor
  all_goals first
    | (intro h; exact absurd rfl h)
    | (intro h; exact ⟨_, _, rfl, by assumption, rfl⟩)
    | (intro ops hops htxn; simp_all [GoResult.isErr])

/-- C3 witness: with a server that rejects the transaction, the call
errors and the state is exactly the pre-call state. -/
theorem createEndpoint_txn_ordering_witness :
    (CreateEndpoint envTxnFail stNet1 rqEp1).2.1.isErr = true ∧
    (CreateEndpoint envTxnFail stNet1 rqEp1).1 = stNet1 :=
  (createEndpoint_txn_ordering envTxnFail stNet1 rqEp1).2
    (addPortOps ("ovs-br0") ("vport001") 0 0 0) (by decide) (by decide)

/-- C10: a network registered through `AllocateNetwork` is stored with
a nil endpoint map, and a `CreateEndpoint` call on such a network that
passes validation, veth creation, and the switch transaction reaches
the assignment into the nil map and panics instead of returning a
result or error. -/
theorem allocateNetwork_nil_endpoint_map_panic :
    (∀ (st : DriverState) (rq : AllocateNetworkRequest) (ds : List IPAMData),
      rq.networkID ≠ "" → rq.ipv4Data = some ds →
      ∃ n, lookupA (AllocateNetwork st rq).1.networks rq.networkID = some n ∧
        n.endpoints = none) ∧
    (∀ env st r intf n a nm,
      r.networkID ≠ "" → r.endpointID ≠ "" → r.intf = some intf →
      lookupA st.networks r.networkID = some n → n.endpoints = none →
      env.genIfaceName = Except.ok nm →
      parseCIDR intf.address = some a →
      (∃ s, getSubnetforIP n.subnets a = GoResult.ok (some s)) →
      env.createVeth nm (getOvsPortName nm) = none →
      doOperations
        (addPortOps st.ovsdb.bridgeName (getOvsPortName nm) n.vlan n.brust
          n.bandwidth)
        (env.transactReply (addPortOps st.ovsdb.bridgeName (getOvsPortName nm)
          n.vlan n.brust n.bandwidth)) = none →
      (CreateEndpoint env st r).2.1 =
        GoResult.gopanic ("assignment to entry in nil map")) := by
  constructor
  · intro st rq ds h1 h2
    refine ⟨{ id := rq.networkID, vlan := 0, gateway := "", bandwidth := 0,
              brust := 0, endpoints := none,
              subnets := ds.map (fun d =>
                { subnetIP := parseCIDR d.pool,
                  gwIP := parseCIDR d.gateway }) }, ?_, rfl⟩
    simp [AllocateNetwork, h1, h2, lookupA_insertA_self]
  · intro env st r intf n a nm h1 h2 h3 h4 h5 hgen h6 h7 h8 h9
    obtain ⟨s, hs⟩ := h7
    simp [CreateEndpoint, h1, h2, h3, h4, h5, hgen, h6, hs, h8, h9]

/-- C10 witness: the concrete allocated network `n1` makes the valid
`CreateEndpoint` call for `10.0.0.5/24` panic on the nil map. -/
theorem allocateNetwork_nil_endpoint_map_panic_witness :
    (CreateEndpoint envOk stAlloc1 rqEp1).2.1 =
      GoResult.gopanic ("assignment to entry in nil map") :=
  allocateNetwork_nil_endpoint_map_panic.2 envOk stAlloc1 rqEp1
    { address := "10.0.0.5/24", macAddress := none } netAlloc1
    { ip := 167772160, maskLen := 24 } ("port001")
    (by decide) (by decide) (by decide) (by decide) (by decide) rfl
    (by decide) ⟨subnet24, by decide⟩ (by decide) (by decide)

/-- C8 witness: the three-operation transaction evaluated at a concrete
call. -/
theorem addPort_builds_three_ops_witness :
    (ovsdbAddPort envOk st0.ovsdb ("10.0.0.5/24") ("02:42:0a:00:00:05")
      ("p1") 10 100 1000).2 =
      [addPortOps ("ovs-br0") ("p1") 10 100 1000] :=
  (addPort_builds_three_ops envOk st0.ovsdb ("10.0.0.5/24")
    ("02:42:0a:00:00:05") ("p1") 10 100 1000).1
